import Mathlib

/-!
Shallow embedding of `create-dylan-app` (src/bin/index.js), an interactive
scaffolding CLI.  The script prompts for a project name, a TypeScript
confirmation and a style library, then copies template directories into the
new project root, patches the package manifest's name field and shells out to
`npm install`.  The embedding below mirrors the script definition by
definition: the static configuration tables, the name-validation hook of the
first prompt, the manifest patch, the `install` helper and the sequential
effect trace of `main`.
-/

/-- A JavaScript runtime value, as far as the prompt answers need: the
confirm prompt yields a boolean, while line 142 compares that answer with the
string literal used by the prompt's display transformer. -/
inductive JSValue
  | bool (b : Bool)
  | str (s : String)
deriving DecidableEq

/-- JavaScript strict equality `===` restricted to the values above: values
of different runtime types are never strictly equal. -/
def strictEq : JSValue → JSValue → Bool
  | JSValue.bool a, JSValue.bool b => a == b
  | JSValue.str a, JSValue.str b => a == b
  | _, _ => false

/-- The `dependencies` object of a base configuration (lines 24-27, 31-39):
packages installed normally and packages installed with `--save-dev`. -/
structure Dependencies where
  save : List String
  saveDev : List String
deriving DecidableEq

/-- A base (language) configuration of the `baseConfigs` table
(lines 21-42): a content directory and its dependency lists. -/
structure BaseConfig where
  contentPath : String
  dependencies : Dependencies
deriving DecidableEq

/-- A style configuration of the `styleConfigs` table (lines 44-61): only
`tailwindcss` carries a `contentPath`, hence the `Option`; every style
configuration only has `saveDev` dependencies. -/
structure StyleConfig where
  contentPath : Option String
  saveDev : List String
deriving DecidableEq

/-- Stands for `resolve(__dirname, '../content/common')` (line 129). -/
def contentPathCommon : String := "../content/common"

/-- Stands for `resolve(__dirname, '../content/javascript')` (line 23). -/
def contentPathJavascript : String := "../content/javascript"

/-- Stands for `resolve(__dirname, '../content/typescript')` (line 30). -/
def contentPathTypescript : String := "../content/typescript"

/-- Stands for `resolve(__dirname, '../content/tailwindcss')` (line 51). -/
def contentPathTailwindcss : String := "../content/tailwindcss"

/-- `baseConfigs.javascript` (lines 22-28). -/
def baseConfigs_javascript : BaseConfig :=
  { contentPath := contentPathJavascript
    dependencies :=
      { save := ["react@18", "react-dom@18"]
        saveDev := ["vite@4", "@vitejs/plugin-react@4"] } }

/-- `baseConfigs.typescript` (lines 29-41). -/
def baseConfigs_typescript : BaseConfig :=
  { contentPath := contentPathTypescript
    dependencies :=
      { save := ["react@18", "react-dom@18"]
        saveDev :=
          ["vite@4", "@vitejs/plugin-react@4", "@types/react@18",
           "@types/react-dom@18", "@types/node@18"] } }

/-- `styleConfigs.mui` (lines 45-49): no content path. -/
def styleConfigs_mui : StyleConfig :=
  { contentPath := none
    saveDev := ["@mui/material@5", "@emotion/react@11", "@emotion/styled@11"] }

/-- `styleConfigs.tailwindcss` (lines 50-55). -/
def styleConfigs_tailwindcss : StyleConfig :=
  { contentPath := some contentPathTailwindcss
    saveDev := ["tailwindcss@3", "postcss@8", "autoprefixer@10"] }

/-- `styleConfigs.bootstrap` (lines 56-60): no content path. -/
def styleConfigs_bootstrap : StyleConfig :=
  { contentPath := none
    saveDev := ["bootstrap@5"] }

/-- `resolve(base, value)` of `node:path` for the simple relative names the
script joins: the empty segment resolves to the base itself. -/
def resolvePath (base value : String) : String :=
  if value = "" then base else base ++ "/" ++ value

/-- The filesystem as the validation hook observes it: a path either does not
exist (`none`) or is a directory with a list of entries. -/
def FileSystem : Type := String → Option (List String)

/-- `existsSync(path)` (line 76). -/
def existsSync (fs : FileSystem) (path : String) : Bool :=
  (fs path).isSome

/-- `readdirSync(path)` (line 201), on a path known to exist. -/
def readdirSync (fs : FileSystem) (path : String) : List String :=
  (fs path).getD []

/-- `isDirectoryEmpty(path)` (lines 200-202). -/
def isDirectoryEmpty (fs : FileSystem) (path : String) : Bool :=
  (readdirSync fs path).length == 0

/-- The message returned for a blank name (line 71). -/
def emptyNameMsg : String := "Please enter a name"

/-- The message returned for a colliding name (line 77). -/
def nameConflictMsg (value : String) : String :=
  "Cannot use name \"" ++ value ++
    "\"; this directory already exists and is not empty"

/-- What the inquirer validate hook returns: `true` (acceptance) or an error
string (which makes the prompt re-ask). -/
inductive ValidateResult
  | ok
  | err (msg : String)
deriving DecidableEq

/-- The validate hook of the name question (lines 69-81): reject a blank
name, then reject a name whose resolved path exists as a non-empty
directory, otherwise accept. -/
def validateName (fs : FileSystem) (cwd value : String) : ValidateResult :=
  if value = "" then ValidateResult.err emptyNameMsg
  else if existsSync fs (resolvePath cwd value)
      && !(isDirectoryEmpty fs (resolvePath cwd value)) then
    ValidateResult.err (nameConflictMsg value)
  else ValidateResult.ok

/-- Modelled from the spec: "validation failures re-prompt rather than exit"
— the prompt library (declared out of scope by the spec) re-asks the name
question while the validate hook returns an error string.  Given the stream
of inputs the user would type, the accepted name is the first one the hook
accepts; no failure crashes or exits. -/
def promptLoop (fs : FileSystem) (cwd : String) : List String → Option String
  | [] => none
  | value :: rest =>
    match validateName fs cwd value with
    | ValidateResult.ok => some value
    | ValidateResult.err _ => promptLoop fs cwd rest

/-- A JSON value, the shape of the parsed package manifest (line 132). -/
inductive Json
  | str (s : String)
  | num (n : Int)
  | bool (b : Bool)
  | null
  | arr (elems : List Json)
  | obj (fields : List (String × Json))

/-- JavaScript property assignment on a parsed JSON object: replace the
value at an existing key in place, or append the key at the end.  This is
`packageJSON.name = answers.name` (line 133). -/
def setField : List (String × Json) → String → Json → List (String × Json)
  | [], key, v => [(key, v)]
  | (k, w) :: rest, key, v =>
    if k = key then (key, v) :: rest else (k, w) :: setField rest key v

/-- Property lookup on a parsed JSON object. -/
def getField : List (String × Json) → String → Option Json
  | [], _ => none
  | (k, w) :: rest, key => if k = key then some w else getField rest key

/-- Lines 132-139: parse the manifest, set its `name` field to the answered
project name, write it back.  The parsed object is an association list of
fields; serialisation preserves the fields as given. -/
def patchManifest (manifest : List (String × Json)) (projectName : String) :
    List (String × Json) :=
  setField manifest "name" (Json.str projectName)

/-- The observed outcome of the `execSync` call inside `install`: the
subprocess's exit code and, when it fails, the error text `execSync`
throws. -/
structure ExecResult where
  exitCode : Nat
  errorText : String
deriving DecidableEq

/-- What a call to `install` does to the process: return normally, or
terminate the whole process via `process.exit` with a printed message. -/
inductive InstallOutcome
  | ok
  | exited (status : Nat) (printed : String)
deriving DecidableEq

/-- The command string built on lines 186-189. -/
def npmInstallCommand (isDev : Bool) (dependencies : List String) : String :=
  "npm install " ++ (if isDev then "--save-dev " else "")
    ++ String.intercalate " " dependencies

/-- The `install` helper (lines 184-198).  It issues exactly one `execSync`
call (the returned list of issued commands), and on a non-zero exit code
prints the error and exits the process with status 1.  The `projectDir`
parameter threads the state of the materialized project directory, which the
helper never touches: it is returned as received. -/
def install {σ : Type} (dependencies : List String) (isDev : Bool)
    (execResult : ExecResult) (projectDir : σ) :
    List String × InstallOutcome × σ :=
  ( [npmInstallCommand isDev dependencies],
    if execResult.exitCode = 0 then InstallOutcome.ok
    else InstallOutcome.exited 1 ("npm install failed; " ++ execResult.errorText),
    projectDir )

/-- The answers object `inquirer.prompt(questions)` resolves to (line 114):
`name` from the input prompt, `useTypeScript` from the confirm prompt,
`styleLibrary` from the list prompt. -/
structure Answers where
  name : String
  useTypeScript : JSValue
  styleLibrary : String
deriving DecidableEq

/-- Lines 142-143: `answers.useTypeScript === '👍' ? typescript :
javascript`. -/
def selectedBaseConfig (useTypeScript : JSValue) : BaseConfig :=
  if strictEq useTypeScript (JSValue.str "👍") then baseConfigs_typescript
  else baseConfigs_javascript

/-- The `switch (answers.styleLibrary)` of lines 160-176, selecting the
style configuration (or none) by display string. -/
def styleConfigFor (styleLibrary : String) : Option StyleConfig :=
  if styleLibrary = "MUI" then some styleConfigs_mui
  else if styleLibrary = "Tailwind CSS" then some styleConfigs_tailwindcss
  else if styleLibrary = "Bootstrap" then some styleConfigs_bootstrap
  else none

/-- One observable effect of `main` (lines 98-182), in program order. -/
inductive Event
  | promptAnswers
  | mkdirSync (path : String)
  | copy (src : String) (dest : String)
  | writePackage (path : String)
  | chdir (path : String)
  | execInstall (isDev : Bool) (dependencies : List String)
deriving DecidableEq

/-- The sequence of effects `main` performs (lines 114-181), statement by
statement: prompt; create the root directory when it does not already exist
(`rootExists` is what `existsSync` reports on line 124); copy the common
template; read, patch and rewrite `package.json`; copy the selected base
template; copy the tailwind template when that style was chosen; change the
working directory to the project root; run the two base installs; run the
style install when a style configuration was selected. -/
def mainTrace (cwd : String) (answers : Answers) (rootExists : Bool) :
    List Event :=
  let root := resolvePath cwd answers.name
  let packagePath := resolvePath root "package.json"
  let config := selectedBaseConfig answers.useTypeScript
  [Event.promptAnswers]
    ++ (if rootExists then [] else [Event.mkdirSync root])
    ++ [Event.copy contentPathCommon root]
    ++ [Event.writePackage packagePath]
    ++ [Event.copy config.contentPath root]
    ++ (if answers.styleLibrary = "Tailwind CSS" then
          [Event.copy contentPathTailwindcss root]
        else [])
    ++ [Event.chdir root]
    ++ [Event.execInstall false config.dependencies.save]
    ++ [Event.execInstall true config.dependencies.saveDev]
    ++ (match styleConfigFor answers.styleLibrary with
        | some sc => [Event.execInstall true sc.saveDev]
        | none => [])

/-- The source directories of the copy events of a trace, in order. -/
def copySources (trace : List Event) : List String :=
  trace.filterMap fun ev =>
    match ev with
    | Event.copy src _ => some src
    | _ => none

/-- The package-manager invocations of a trace, in order: the dev flag and
the dependency list of each. -/
def installCalls (trace : List Event) : List (Bool × List String) :=
  trace.filterMap fun ev =>
    match ev with
    | Event.execInstall isDev deps => some (isDev, deps)
    | _ => none

/-- Whether an event is a template copy. -/
def isCopy : Event → Bool
  | Event.copy _ _ => true
  | _ => false

/-- Whether an event is the manifest patch. -/
def isWritePackage : Event → Bool
  | Event.writePackage _ => true
  | _ => false

/-- Whether an event is the working-directory change. -/
def isChdir : Event → Bool
  | Event.chdir _ => true
  | _ => false

/-- Whether some template copy happens after the manifest patch. -/
def copyAfterPatch : List Event → Bool
  | [] => false
  | Event.writePackage _ :: rest => rest.any isCopy
  | _ :: rest => copyAfterPatch rest

/-- The events before the manifest patch. -/
def beforePatch (trace : List Event) : List Event :=
  trace.takeWhile fun ev => !(isWritePackage ev)

/-- The events after the manifest patch. -/
def afterPatch (trace : List Event) : List Event :=
  (trace.dropWhile fun ev => !(isWritePackage ev)).drop 1

/-- The events before the working-directory change. -/
def upToChdir (trace : List Event) : List Event :=
  trace.takeWhile fun ev => !(isChdir ev)

/-- The events from the working-directory change on. -/
def fromChdir (trace : List Event) : List Event :=
  trace.dropWhile fun ev => !(isChdir ev)

/-! ## Helper lemmas -/

/-- The collision message is never the blank-name message: their lengths
differ. -/
theorem nameConflictMsg_ne_emptyNameMsg (value : String) :
    nameConflictMsg value ≠ emptyNameMsg := by
  intro h
  have hlen := congrArg String.length h
  have h1 : ("Cannot use name \"" : String).length = 17 := by decide
  have h2 : ("\"; this directory already exists and is not empty" :
      String).length = 49 := by decide
  have h3 : emptyNameMsg.length = 19 := by decide
  rw [nameConflictMsg] at hlen
  simp [String.length_append, h1, h2, h3] at hlen

/-- Setting a field makes lookup of that field return the new value. -/
theorem getField_setField_same (l : List (String × Json)) (key : String)
    (v : Json) : getField (setField l key v) key = some v := by
  induction l with
  | nil => simp [setField, getField]
  | cons hd tl ih =>
    obtain ⟨k, w⟩ := hd
    by_cases hk : k = key
    · simp [setField, getField, hk]
    · simp [setField, getField, hk, ih]

/-- Setting a field leaves lookup of every other field unchanged. -/
theorem getField_setField_other (l : List (String × Json)) (key other : String)
    (v : Json) (h : other ≠ key) :
    getField (setField l key v) other = getField l other := by
  induction l with
  | nil => simp [setField, getField, h, Ne.symm h]
  | cons hd tl ih =>
    obtain ⟨k, w⟩ := hd
    by_cases hk : k = key
    · subst hk
      simp [setField, getField, Ne.symm h]
    · by_cases ho : k = other
      · simp [setField, getField, hk, ho, h, Ne.symm h]
      · simp [setField, getField, hk, ho, ih]

/-! ## Claim theorems -/

/-- Claim C7: every non-empty project name whose resolved path either does
not exist or is an existing empty directory is accepted by the validate hook
of the name prompt, so the prompt does not re-ask. -/
theorem validateName_accepts (fs : FileSystem) (cwd value : String)
    (hne : value ≠ "")
    (hfs : fs (resolvePath cwd value) = none
      ∨ fs (resolvePath cwd value) = some []) :
    validateName fs cwd value = ValidateResult.ok := by
  rcases hfs with h | h <;>
    simp [validateName, hne, existsSync, isDirectoryEmpty, readdirSync, h]

/-- Witness for C7 at a concrete input: a fresh name on an empty
filesystem. -/
theorem validateName_accepts_witness :
    validateName (fun _ => none) "/home/user" "my-app" = ValidateResult.ok :=
  validateName_accepts (fun _ => none) "/home/user" "my-app" (by decide)
    (Or.inl rfl)

/-- Claim C8: the validate hook fails with the name-conflict message exactly
when the (non-blank) name resolves to an existing non-empty directory, and
with the blank-name message exactly when the name is blank (the blank check
runs first, so a blank name always gets the blank-name message); a failing
validation makes the prompt move on to the user's next input rather than
crash or exit. -/
theorem validateName_failure_modes (fs : FileSystem) (cwd value : String) :
    (validateName fs cwd value = ValidateResult.err emptyNameMsg
      ↔ value = "")
    ∧ (validateName fs cwd value = ValidateResult.err (nameConflictMsg value)
      ↔ value ≠ "" ∧ existsSync fs (resolvePath cwd value) = true
          ∧ isDirectoryEmpty fs (resolvePath cwd value) = false)
    ∧ (∀ rest : List String, validateName fs cwd value ≠ ValidateResult.ok →
        promptLoop fs cwd (value :: rest) = promptLoop fs cwd rest) := by
  by_cases hv : value = ""
  · subst hv
    simp [validateName, promptLoop,
      Ne.symm (nameConflictMsg_ne_emptyNameMsg "")]
  · by_cases he : existsSync fs (resolvePath cwd value) = true
    · by_cases hd : isDirectoryEmpty fs (resolvePath cwd value) = true
      · simp [validateName, hv, he, hd, promptLoop]
      · simp only [Bool.not_eq_true] at hd
        simp [validateName, hv, he, hd, promptLoop,
          nameConflictMsg_ne_emptyNameMsg value]
    · simp only [Bool.not_eq_true] at he
      simp [validateName, hv, he, promptLoop]

/-- Claim C5: patching the manifest with a project name sets the `name`
field to that name and leaves the value of every other field exactly as it
was before the patch. -/
theorem patchManifest_roundtrip (manifest : List (String × Json))
    (projectName : String) :
    getField (patchManifest manifest projectName) "name"
      = some (Json.str projectName)
    ∧ ∀ key, key ≠ "name" →
        getField (patchManifest manifest projectName) key
          = getField manifest key := by
  refine ⟨getField_setField_same manifest "name" (Json.str projectName), ?_⟩
  intro key hk
  exact getField_setField_other manifest "name" key (Json.str projectName) hk

/-- Claim C6: when the install subprocess exits non-zero, `install` prints
the captured error text prefixed by "npm install failed; " and exits the
process with status 1; it issued the package-manager command exactly once
(no retry) and the materialized project directory state it was given is
returned untouched. -/
theorem install_failure (σ : Type) (dependencies : List String) (isDev : Bool)
    (execResult : ExecResult) (projectDir : σ)
    (h : execResult.exitCode ≠ 0) :
    install dependencies isDev execResult projectDir =
      ([npmInstallCommand isDev dependencies],
        InstallOutcome.exited 1 ("npm install failed; " ++ execResult.errorText),
        projectDir)
    ∧ (install dependencies isDev execResult projectDir).1.length = 1 := by
  constructor
  · simp [install, h]
  · rfl

/-- Witness for C6 at a concrete input: a failed install of the runtime
dependencies with exit code 1. -/
theorem install_failure_witness :
    install ["react@18", "react-dom@18"] false
        (ExecResult.mk 1 "network unreachable") (0 : Nat) =
      ([npmInstallCommand false ["react@18", "react-dom@18"]],
        InstallOutcome.exited 1
          ("npm install failed; "
            ++ (ExecResult.mk 1 "network unreachable").errorText),
        (0 : Nat))
    ∧ (install ["react@18", "react-dom@18"] false
        (ExecResult.mk 1 "network unreachable") (0 : Nat)).1.length = 1 :=
  install_failure Nat ["react@18", "react-dom@18"] false
    (ExecResult.mk 1 "network unreachable") 0 (by decide)

/-- Claim C9: with the JavaScript language (confirm answered false) and
style library None, the run copies exactly the common directory then the
javascript template, and the installs are exactly the JavaScript runtime
dependencies and the JavaScript dev dependencies — no style dependencies. -/
theorem javascript_none_plan (cwd name : String) (rootExists : Bool) :
    copySources (mainTrace cwd
        (Answers.mk name (JSValue.bool false) "None") rootExists)
      = [contentPathCommon, contentPathJavascript]
    ∧ installCalls (mainTrace cwd
        (Answers.mk name (JSValue.bool false) "None") rootExists)
      = [(false, baseConfigs_javascript.dependencies.save),
         (true, baseConfigs_javascript.dependencies.saveDev)] := by
  cases rootExists <;> exact ⟨rfl, rfl⟩

/-- Claim C10: MUI and Bootstrap have no content directory, so runs that
select them copy exactly the same sources as a run selecting None; their
only extra effect is one additional dev install of the style's dev
dependencies.  Tailwind CSS is the only style configuration with a content
path. -/
theorem style_without_content_is_frame (cwd name : String) (v : JSValue)
    (rootExists : Bool) :
    styleConfigs_mui.contentPath = none
    ∧ styleConfigs_bootstrap.contentPath = none
    ∧ styleConfigs_tailwindcss.contentPath = some contentPathTailwindcss
    ∧ copySources (mainTrace cwd (Answers.mk name v "MUI") rootExists)
        = copySources (mainTrace cwd (Answers.mk name v "None") rootExists)
    ∧ copySources (mainTrace cwd (Answers.mk name v "Bootstrap") rootExists)
        = copySources (mainTrace cwd (Answers.mk name v "None") rootExists)
    ∧ installCalls (mainTrace cwd (Answers.mk name v "MUI") rootExists)
        = installCalls (mainTrace cwd (Answers.mk name v "None") rootExists)
          ++ [(true, styleConfigs_mui.saveDev)]
    ∧ installCalls (mainTrace cwd (Answers.mk name v "Bootstrap") rootExists)
        = installCalls (mainTrace cwd (Answers.mk name v "None") rootExists)
          ++ [(true, styleConfigs_bootstrap.saveDev)] := by
  cases rootExists <;> exact ⟨rfl, rfl, rfl, rfl, rfl, rfl, rfl⟩

/-- Claim C1 (the code at the claim's input): when the confirm prompt is
answered affirmatively — its answer is the boolean true — and Tailwind CSS
is selected, line 142 compares that boolean with the string used only for
display, so the run copies the JAVASCRIPT template (not the typescript one)
and installs the JavaScript dev dependencies together with the Tailwind
ones. -/
theorem typescript_selection_bug_effect :
    strictEq (JSValue.bool true) (JSValue.str "👍") = false
    ∧ copySources (mainTrace "/home/user"
        (Answers.mk "my-app" (JSValue.bool true) "Tailwind CSS") false)
      = [contentPathCommon, contentPathJavascript, contentPathTailwindcss]
    ∧ installCalls (mainTrace "/home/user"
        (Answers.mk "my-app" (JSValue.bool true) "Tailwind CSS") false)
      = [(false, ["react@18", "react-dom@18"]),
         (true, ["vite@4", "@vitejs/plugin-react@4"]),
         (true, ["tailwindcss@3", "postcss@8", "autoprefixer@10"])] :=
  ⟨rfl, rfl, rfl⟩

/-- Claim C2: whatever boolean the confirm prompt produces, the base
configuration line 143 picks is the JavaScript one; no run whose
useTypeScript answer is a boolean ever copies the typescript template or
installs the TypeScript dev-dependency list. -/
theorem confirm_selects_javascript_only (b : Bool)
    (cwd name styleLibrary : String) (rootExists : Bool) :
    selectedBaseConfig (JSValue.bool b) = baseConfigs_javascript
    ∧ contentPathTypescript ∉ copySources (mainTrace cwd
        (Answers.mk name (JSValue.bool b) styleLibrary) rootExists)
    ∧ (true, baseConfigs_typescript.dependencies.saveDev) ∉ installCalls
        (mainTrace cwd
          (Answers.mk name (JSValue.bool b) styleLibrary) rootExists) := by
  have hsel : selectedBaseConfig (JSValue.bool b) = baseConfigs_javascript := by
    cases b <;> rfl
  refine ⟨hsel, ?_, ?_⟩ <;>
  · cases rootExists <;>
    by_cases hM : styleLibrary = "MUI" <;>
    by_cases hT : styleLibrary = "Tailwind CSS" <;>
    by_cases hB : styleLibrary = "Bootstrap" <;>
    simp_all [mainTrace, copySources, installCalls, styleConfigFor,
      baseConfigs_javascript, baseConfigs_typescript,
      contentPathCommon, contentPathJavascript, contentPathTypescript,
      contentPathTailwindcss, styleConfigs_mui, styleConfigs_tailwindcss,
      styleConfigs_bootstrap]

/-- Counterexample to claim C3 as stated: in a concrete run (JavaScript,
style None, fresh directory) a template copy happens AFTER the manifest
patch — the patch sits between the common-template copy and the
language-template copy, so it does not wait for every copy to complete. -/
theorem patch_before_language_copy_example :
    copyAfterPatch (mainTrace "/home/user"
      (Answers.mk "my-app" (JSValue.bool false) "None") false) = true := rfl

/-- Claim C3 as amended: the pipeline is strictly sequential and starts with
the prompt, but the manifest patch happens right after the common-template
copy and BEFORE the language-template copy (and before the Tailwind copy
when selected); all installs come after the patch and after the
working-directory change, and no copy happens after that change. -/
theorem pipeline_order (cwd : String) (answers : Answers) (rootExists : Bool) :
    (mainTrace cwd answers rootExists).head? = some Event.promptAnswers
    ∧ (mainTrace cwd answers rootExists).countP isWritePackage = 1
    ∧ copySources (beforePatch (mainTrace cwd answers rootExists))
        = [contentPathCommon]
    ∧ copySources (afterPatch (mainTrace cwd answers rootExists))
        = (selectedBaseConfig answers.useTypeScript).contentPath ::
            (if answers.styleLibrary = "Tailwind CSS" then
              [contentPathTailwindcss] else [])
    ∧ installCalls (beforePatch (mainTrace cwd answers rootExists)) = []
    ∧ installCalls (upToChdir (mainTrace cwd answers rootExists)) = []
    ∧ copySources (fromChdir (mainTrace cwd answers rootExists)) = [] := by
  obtain ⟨name, v, style⟩ := answers
  cases rootExists <;>
  by_cases hM : style = "MUI" <;>
  by_cases hT : style = "Tailwind CSS" <;>
  by_cases hB : style = "Bootstrap" <;>
  simp_all [mainTrace, copySources, installCalls, styleConfigFor,
    beforePatch, afterPatch, upToChdir, fromChdir, isWritePackage, isChdir,
    List.takeWhile_cons, List.dropWhile_cons, List.countP_cons]

/-- Counterexample to claim C4 as stated: a concrete run that selects the
MUI style library reaches the install step and invokes the package manager
three times, not twice. -/
theorem three_installs_with_style_example :
    (installCalls (mainTrace "/home/user"
      (Answers.mk "my-app" (JSValue.bool false) "MUI") false)).length = 3 := rfl

/-- Claim C4 as amended: every run performs one install of the selected base
configuration's runtime dependencies and one of its dev dependencies, in
that order, followed by one further dev install when a style configuration
was selected (so two invocations with style None, three otherwise); every
invocation happens after the working directory is changed to the new project
root. -/
theorem install_invocations (cwd : String) (answers : Answers)
    (rootExists : Bool) :
    installCalls (mainTrace cwd answers rootExists)
      = [(false, (selectedBaseConfig answers.useTypeScript).dependencies.save),
         (true, (selectedBaseConfig answers.useTypeScript).dependencies.saveDev)]
        ++ (match styleConfigFor answers.styleLibrary with
            | some sc => [(true, sc.saveDev)]
            | none => [])
    ∧ (installCalls (mainTrace cwd answers rootExists)).length
        = (if (styleConfigFor answers.styleLibrary).isSome then 3 else 2)
    ∧ installCalls (upToChdir (mainTrace cwd answers rootExists)) = []
    ∧ (fromChdir (mainTrace cwd answers rootExists)).head?
        = some (Event.chdir (resolvePath cwd answers.name)) := by
  obtain ⟨name, v, style⟩ := answers
  cases rootExists <;>
  by_cases hM : style = "MUI" <;>
  by_cases hT : style = "Tailwind CSS" <;>
  by_cases hB : style = "Bootstrap" <;>
  simp_all [mainTrace, copySources, installCalls, styleConfigFor,
    upToChdir, fromChdir, isChdir,
    List.takeWhile_cons, List.dropWhile_cons]
